import Mathlib

/-!
Verification of the ICE `Connection` state machine of this repository
(`src/p2p/base/connection.h`).  The repository snapshot contains the class
declaration (`connection.h`) but not `connection.cc`; operations whose bodies
live in the missing `.cc` file are modelled from the specification
(`spec.md` sections 3, 4 and 9) and are marked `Modelled from the spec:` in
their doc comments.  Code that is inline in the header (`AlignTime`, the
deprecated millisecond forwarders, `pending_delete`, member initialisers)
is embedded directly from the source.
-/

namespace WebRTC

/-- Embeds `webrtc::Timestamp` (api/units/timestamp.h, not under src/):
a one-sided (non-negative) time value with microsecond resolution, so it is
modelled as a natural number of microseconds.  `Millis` and `ms` convert
to and from whole milliseconds. -/
structure Timestamp where
  us : Nat
deriving DecidableEq, Repr

/-- `Timestamp::Millis(m)`: a timestamp of `m` milliseconds. -/
def Timestamp.millis (m : Nat) : Timestamp := ⟨m * 1000⟩

/-- `Timestamp::ms()`: the value in whole milliseconds. -/
def Timestamp.ms (t : Timestamp) : Nat := t.us / 1000

/-- Embeds `webrtc::TimeDelta` (api/units/time_delta.h, not under src/):
a duration with microsecond resolution; the connection only ever uses
non-negative durations, modelled as a natural number of microseconds. -/
structure TimeDelta where
  us : Nat
deriving DecidableEq, Repr

/-- `TimeDelta::Millis(m)`. -/
def TimeDelta.millis (m : Nat) : TimeDelta := ⟨m * 1000⟩

/-- `TimeDelta::ms()`. -/
def TimeDelta.ms (d : TimeDelta) : Nat := d.us / 1000

/-- `Connection::WriteState` (src/p2p/base/connection.h lines 100-105). -/
inductive WriteState where
  | STATE_WRITABLE          -- we have received ping responses recently
  | STATE_WRITE_UNRELIABLE  -- we have had a few ping failures
  | STATE_WRITE_INIT        -- we have yet to receive a ping response
  | STATE_WRITE_TIMEOUT     -- we have had a large number of ping failures
deriving DecidableEq, Repr

/-- `webrtc::IceCandidatePairState` (spec section 3: RFC 5245 section 5.7.4). -/
inductive IceCandidatePairState where
  | Waiting
  | InProgress
  | Succeeded
  | Failed
deriving DecidableEq, Repr

/-- `Connection::SentPing` (src/p2p/base/connection.h lines 70-77): one entry
of `pings_since_last_response_`.  The STUN transaction id (a 96-bit string in
the source) is abstracted to a natural number. -/
structure SentPing where
  id : Nat
  sent_time : Timestamp
  nomination : Nat
deriving DecidableEq, Repr

/-- Kind of an outbound STUN message (spec sections 4.2 and 4.7). -/
inductive MsgKind where
  | bindingRequest
  | googPingRequest
  | bindingResponse
  | googPingResponse
deriving DecidableEq, Repr

/-- One outbound send through the owning port: the message kind and its
serialised body (bytes abstracted to a list of naturals). -/
structure SentMsg where
  kind : MsgKind
  body : List Nat
deriving DecidableEq, Repr

/-- Signals published by a `Connection` (spec section 4.10):
`SignalStateChange`, `SignalDestroyed`, `SignalNominated`. -/
inductive ConnEvent where
  | stateChange
  | destroyed
  | nominated
deriving DecidableEq, Repr

/-- Default 5 (spec section 4.5, `CONNECTION_WRITE_CONNECT_FAILURES`). -/
def CONNECTION_WRITE_CONNECT_FAILURES : Nat := 5

/-- Default 15 s (spec section 4.5, `CONNECTION_WRITE_CONNECT_TIMEOUT`). -/
def CONNECTION_WRITE_CONNECT_TIMEOUT : TimeDelta := TimeDelta.millis 15000

/-- Default 20 (spec section 4.5, `CONNECTION_WRITE_TIMEOUT_FAILURES`). -/
def CONNECTION_WRITE_TIMEOUT_FAILURES : Nat := 20

/-- Default inactive timeout, 30 s (spec section 4.5). -/
def DEFAULT_INACTIVE_TIMEOUT : TimeDelta := TimeDelta.millis 30000

/-- Default unwritable timeout, 10 s (spec section 4.5). -/
def DEFAULT_UNWRITABLE_TIMEOUT : TimeDelta := TimeDelta.millis 10000

/-- Default unwritable min checks, 6 (spec section 4.5). -/
def DEFAULT_UNWRITABLE_MIN_CHECKS : Nat := 6

/-- Default receiving timeout, 2500 ms (spec section 4.6). -/
def DEFAULT_RECEIVING_TIMEOUT : TimeDelta := TimeDelta.millis 2500

/-- Modelled from the spec: the configured maximum length of
`pings_since_last_response` (spec section 3: "bounded ordered sequence",
section 4.3: "trimming to the configured max"; the concrete bound is not
given in the spec, fixed here at 100). -/
def MAX_PINGS_SINCE_LAST_RESPONSE : Nat := 100

/-- State of one `webrtc::Connection`, following the member list of
src/p2p/base/connection.h lines 538-648.  The weak `port_` handle is
modelled by a Boolean (`true` iff the handle is still valid), in-flight
STUN transactions of the `StunRequestManager` by their transaction ids,
the remote candidate and the accumulated statistics by opaque naturals,
and the emitted signals / outbound packets by ghost lists `events` and
`sends` so that frame conditions can be stated. -/
structure Connection where
  port : Bool
  write_state : WriteState
  receiving : Bool
  connected : Bool
  pruned : Bool
  nomination : Nat
  acked_nomination : Nat
  remote_nomination : Nat
  requests : List Nat
  rtt : TimeDelta
  rtt_samples : Nat
  total_round_trip_time : TimeDelta
  current_round_trip_time : Option TimeDelta
  last_ping_sent : Timestamp
  last_ping_received : Timestamp
  last_ping_response_received : Option Timestamp
  last_received : Option Timestamp
  last_ping_id_received : Option Nat
  pings_since_last_response : List SentPing
  num_pings_sent : Nat
  state : IceCandidatePairState
  time_created : Timestamp
  rtt_estimate : Option TimeDelta
  remote_support_goog_ping : Option Bool
  cached_stun_binding : Option (List Nat)
  remote_candidate : Nat
  stats : Nat
  events : List ConnEvent
  sends : List SentMsg
deriving DecidableEq, Repr

namespace Connection

/-- A freshly constructed `Connection` (spec section 3 initial values;
member initialisers in src/p2p/base/connection.h lines 560-610:
`nomination_ = 0`, `acked_nomination_ = 0`, `remote_nomination_ = 0`,
`rtt_samples_ = 0`, `num_pings_sent_ = 0`). -/
def init (createdAt : Timestamp) : Connection where
  port := true
  write_state := .STATE_WRITE_INIT
  receiving := false
  connected := true
  pruned := false
  nomination := 0
  acked_nomination := 0
  remote_nomination := 0
  requests := []
  rtt := ⟨0⟩
  rtt_samples := 0
  total_round_trip_time := ⟨0⟩
  current_round_trip_time := none
  last_ping_sent := createdAt
  last_ping_received := createdAt
  last_ping_response_received := none
  last_received := none
  last_ping_id_received := none
  pings_since_last_response := []
  num_pings_sent := 0
  state := .Waiting
  time_created := createdAt
  rtt_estimate := none
  remote_support_goog_ping := none
  cached_stun_binding := none
  remote_candidate := 0
  stats := 0
  events := []
  sends := []

/-- `Connection::AlignTime` (src/p2p/base/connection.h lines 469-471):
`return Timestamp::Millis(time.us() / 1000);`. -/
def AlignTime (time : Timestamp) : Timestamp := Timestamp.millis (time.us / 1000)

/-- `Connection::pending_delete` (src/p2p/base/connection.h lines 121-124):
`return !port_;`. -/
def pending_delete (s : Connection) : Bool := !s.port

/-- `Connection::Rtt()`: the current RTT estimate scalar (spec section 3). -/
def Rtt (s : Connection) : TimeDelta := s.rtt

/-- `Connection::LastPingSent()` (spec section 3). -/
def LastPingSent (s : Connection) : Timestamp := s.last_ping_sent

/-- Deprecated `int Connection::rtt()` (src/p2p/base/connection.h line 131):
`return Rtt().ms();`. -/
def rtt_deprecated (s : Connection) : Nat := (Rtt s).ms

/-- Deprecated `int64_t Connection::last_ping_sent()`
(src/p2p/base/connection.h line 271): `return LastPingSent().ms();`. -/
def last_ping_sent_deprecated (s : Connection) : Nat := (LastPingSent s).ms

/-- Modelled from the spec: trimming of `pings_since_last_response` to the
configured maximum, dropping the oldest entries past the bound
(spec section 3: "truncate oldest past bound"). -/
def trimPings (l : List SentPing) : List SentPing :=
  if MAX_PINGS_SINCE_LAST_RESPONSE < l.length then
    l.drop (l.length - MAX_PINGS_SINCE_LAST_RESPONSE)
  else l

/-- `Connection::ShouldSendGoogPing` (declared src/p2p/base/connection.h
lines 533-536).  Modelled from the spec (section 4.2): true iff
`remote_support_goog_ping == true` and the freshly built request body is
byte-identical to `cached_stun_binding`. -/
def ShouldSendGoogPing (s : Connection) (body : List Nat) : Bool :=
  decide (s.remote_support_goog_ping = some true ∧ s.cached_stun_binding = some body)

/-- Modelled from the spec: the write-state classification of section 4.5,
evaluated at `UpdateState(now)` and after every response.  `connection.cc`
is not under src/. -/
def computeWriteState (now : Timestamp) (s : Connection) : WriteState :=
  let outstanding := s.pings_since_last_response.length
  match s.last_ping_response_received with
  | none =>
      if CONNECTION_WRITE_CONNECT_FAILURES ≤ outstanding ∧
          CONNECTION_WRITE_CONNECT_TIMEOUT.us ≤ now.us - s.time_created.us then
        .STATE_WRITE_TIMEOUT
      else
        .STATE_WRITE_INIT
  | some lastResponse =>
      let sinceResponse := now.us - lastResponse.us
      if DEFAULT_INACTIVE_TIMEOUT.us ≤ sinceResponse ∧
          CONNECTION_WRITE_TIMEOUT_FAILURES ≤ outstanding then
        .STATE_WRITE_TIMEOUT
      else if DEFAULT_UNWRITABLE_TIMEOUT.us ≤ sinceResponse ∨
          DEFAULT_UNWRITABLE_MIN_CHECKS ≤ outstanding then
        .STATE_WRITE_UNRELIABLE
      else
        .STATE_WRITABLE

/-- Modelled from the spec: `Connection::set_write_state`, which changes the
state and publishes `SignalStateChange` exactly once per transition
(spec section 4.5). -/
def set_write_state (value : WriteState) (s : Connection) : Connection :=
  if s.write_state = value then s
  else { s with write_state := value, events := s.events ++ [.stateChange] }

/-- Modelled from the spec: the receiving classification of section 4.6,
`receiving = (now − last_received) < receiving_timeout`, used by
`Connection::UpdateReceiving`. -/
def receivingNow (now : Timestamp) (s : Connection) : Bool :=
  match s.last_received with
  | none => false
  | some lr => decide (now.us - lr.us < DEFAULT_RECEIVING_TIMEOUT.us)

/-- Modelled from the spec: the transition part of section 4.6, publishing
`SignalStateChange` on a change of the receiving flag. -/
def UpdateReceiving (now : Timestamp) (s : Connection) : Connection :=
  if s.receiving = receivingNow now s then s
  else { s with receiving := receivingNow now s,
                events := s.events ++ [.stateChange] }

/-- Modelled from the spec: `Connection::UpdateState(Timestamp now)`
(declared src/p2p/base/connection.h line 263; body in the missing
connection.cc): reclassifies the write state (section 4.5) and the
receiving state (section 4.6). -/
def UpdateState (now : Timestamp) (s : Connection) : Connection :=
  UpdateReceiving now (set_write_state (computeWriteState now s) s)

/-- Deprecated `void Connection::UpdateState(int64_t now)`
(src/p2p/base/connection.h line 262, inline in the header):
`UpdateState(Timestamp::Millis(now));`. -/
def UpdateState_ms (now : Nat) (s : Connection) : Connection :=
  UpdateState (Timestamp.millis now) s

/-- Modelled from the spec: `Connection::Ping(Timestamp now, delta)`
(declared src/p2p/base/connection.h lines 280-281; body in the missing
connection.cc), following spec section 4.3:
1. build the request; append `{txid, now, nomination}` to
   `pings_since_last_response`, trimming to the configured max;
2. hand the request to the StunRequestManager; `last_ping_sent = now`;
   increment `num_pings_sent`;
3. if `state == Waiting`, transition to `InProgress`.
The freshly built request body and its transaction id are inputs.  The
actual outbound send happens in the `OnSendStunPacket` callback, which
checks the weak port handle and no-ops when the port is gone
(spec sections 5 and 9); a GOOG_PING_REQUEST is sent in place of the
binding request when `ShouldSendGoogPing` holds (section 4.2). -/
def Ping (txid : Nat) (body : List Nat) (now : Timestamp) (s : Connection) :
    Connection :=
  let kind := if ShouldSendGoogPing s body then MsgKind.googPingRequest
              else MsgKind.bindingRequest
  let s1 := { s with
    pings_since_last_response :=
      trimPings (s.pings_since_last_response ++ [SentPing.mk txid now s.nomination])
    requests := s.requests ++ [txid]
    last_ping_sent := now
    num_pings_sent := s.num_pings_sent + 1
    state := if s.state = IceCandidatePairState.Waiting then
               IceCandidatePairState.InProgress
             else s.state }
  if s1.port then { s1 with sends := s1.sends ++ [SentMsg.mk kind body] } else s1

/-- Deprecated `void Connection::Ping(int64_t now, delta)`
(src/p2p/base/connection.h lines 275-278, inline in the header):
`Ping(Timestamp::Millis(now), std::move(delta));`. -/
def Ping_ms (txid : Nat) (body : List Nat) (now : Nat) (s : Connection) :
    Connection :=
  Ping txid body (Timestamp.millis now) s

/-- Modelled from the spec: `Connection::ReceivedPingResponse`
(declared src/p2p/base/connection.h lines 289-292; body in the missing
connection.cc), following spec section 4.4 for a matched success response:
feed the RTT sample (EMA with alpha 1/8, warmup snaps to the first sample),
increment `rtt_samples`, accumulate `total_round_trip_time`, set
`current_round_trip_time`; if the matched ping carried a nomination above
`acked_nomination`, raise it and publish nominated; set
`last_ping_response_received = now`; clear `pings_since_last_response`
(spec sections 3 and 8: cleared on every successful response); transition
the pair state to `Succeeded`; recompute the write state (section 4.5). -/
def ReceivedPingResponse (rttSample : TimeDelta) (requestId : Nat)
    (now : Timestamp) (s : Connection) : Connection :=
  let acked :=
    match s.pings_since_last_response.find? (fun p => p.id == requestId) with
    | some p => if s.acked_nomination < p.nomination then p.nomination
                else s.acked_nomination
    | none => s.acked_nomination
  let s1 := { s with
    acked_nomination := acked
    rtt := if s.rtt_samples = 0 then rttSample
           else ⟨(7 * s.rtt.us + rttSample.us) / 8⟩
    rtt_samples := s.rtt_samples + 1
    total_round_trip_time := ⟨s.total_round_trip_time.us + rttSample.us⟩
    current_round_trip_time := some rttSample
    rtt_estimate := some rttSample
    last_ping_response_received := some now
    last_received := some now
    pings_since_last_response := []
    state := .Succeeded
    events := s.events ++
      (if s.acked_nomination < acked then [ConnEvent.nominated] else []) }
  UpdateState now s1

/-- Modelled from the spec: `Connection::HandleStunBindingOrGoogPingRequest`
(declared src/p2p/base/connection.h line 316; body in the missing
connection.cc), for an already-authenticated inbound request, following
spec section 4.7: update `last_ping_received` and `last_ping_id_received`,
mark the inbound traffic; if USE-CANDIDATE (controlled side), set
`remote_nomination = max(remote_nomination, NOMINATION or 1)` and publish
nominated on a transition; send the success response (GOOG_PING_RESPONSE
for an inbound GOOG_PING) — the send requires the port handle and no-ops
when it is gone. -/
def HandleStunBindingOrGoogPingRequest (txid : Nat) (useCandidate : Bool)
    (nominationAttr : Option Nat) (isGoogPing : Bool) (now : Timestamp)
    (s : Connection) : Connection :=
  let newRemote :=
    if useCandidate then max s.remote_nomination (nominationAttr.getD 1)
    else s.remote_nomination
  let s1 := { s with
    last_ping_received := now
    last_ping_id_received := some txid
    last_received := some now
    remote_nomination := newRemote
    events := s.events ++
      (if s.remote_nomination < newRemote then [ConnEvent.nominated] else []) }
  if s1.port then
    { s1 with sends := s1.sends ++
        [SentMsg.mk (if isGoogPing then .googPingResponse else .bindingResponse) []] }
  else s1

/-- Modelled from the spec: `Connection::set_nomination`
(declared src/p2p/base/connection.h line 220; body in the missing
connection.cc).  The spec (sections 3 and 8) requires `nomination` to be
non-decreasing between `ForgetLearnedState` calls for a controlling
connection, so the setter is modelled as a monotone update. -/
def set_nomination (value : Nat) (s : Connection) : Connection :=
  { s with nomination := max s.nomination value }

/-- Modelled from the spec: `Connection::ForgetLearnedState`
(declared src/p2p/base/connection.h line 411, with its contract in the
header comment at lines 399-410 and spec section 4.9): reset
`write_state = WRITE_INIT`, `receiving = false`, throw away all pending
requests, reset the RTT estimate and `pings_since_last_response`; leave
`connected`, `remote_candidate` and the statistics unchanged; publish no
signal. -/
def ForgetLearnedState (s : Connection) : Connection :=
  { s with
    requests := []
    receiving := false
    write_state := .STATE_WRITE_INIT
    rtt_estimate := none
    pings_since_last_response := [] }

/-- Modelled from the spec: `Connection::Prune` (section 4.9). -/
def Prune (s : Connection) : Connection := { s with pruned := true }

/-- Modelled from the spec: `Connection::FailAndPrune` (section 4.9). -/
def FailAndPrune (s : Connection) : Connection :=
  { s with pruned := true, state := .Failed }

/-- Modelled from the spec: `Connection::Shutdown`
(declared src/p2p/base/connection.h lines 246-253; body in the missing
connection.cc), following spec section 4.9: on the first call, cancel the
in-flight requests, release the port handle, publish `SignalDestroyed` and
return true; on subsequent calls return false and change nothing. -/
def Shutdown (s : Connection) : Bool × Connection :=
  if s.port then
    (true, { s with requests := [], port := false,
                    events := s.events ++ [.destroyed] })
  else
    (false, s)

/-- Modelled from the spec: `Connection::Destroy` (section 4.9) calls
`Shutdown` and then arranges deallocation via the owning Port; the
deallocation itself is outside the model. -/
def Destroy (s : Connection) : Connection := (Shutdown s).2

/-- Number of `SignalDestroyed` emissions recorded so far. -/
def destroyedCount (s : Connection) : Nat :=
  s.events.countP (fun e => e == ConnEvent.destroyed)

end Connection

/-- One externally triggered operation on a `Connection`, with the inputs
the environment supplies (current time, transaction ids, message bodies,
attribute values). -/
inductive Op where
  | ping (txid : Nat) (body : List Nat) (now : Timestamp)
  | updateState (now : Timestamp)
  | receivedPingResponse (rttSample : TimeDelta) (requestId : Nat) (now : Timestamp)
  | handleBindingRequest (txid : Nat) (useCandidate : Bool)
      (nominationAttr : Option Nat) (isGoogPing : Bool) (now : Timestamp)
  | setNomination (value : Nat)
  | forgetLearnedState
  | prune
  | failAndPrune
  | shutdown
  | destroy
deriving DecidableEq, Repr

/-- Applies one operation to the connection state. -/
def stepConn (op : Op) (s : Connection) : Connection :=
  match op with
  | .ping txid body now => Connection.Ping txid body now s
  | .updateState now => Connection.UpdateState now s
  | .receivedPingResponse rttSample requestId now =>
      Connection.ReceivedPingResponse rttSample requestId now s
  | .handleBindingRequest txid useCandidate nominationAttr isGoogPing now =>
      Connection.HandleStunBindingOrGoogPingRequest txid useCandidate
        nominationAttr isGoogPing now s
  | .setNomination value => Connection.set_nomination value s
  | .forgetLearnedState => Connection.ForgetLearnedState s
  | .prune => Connection.Prune s
  | .failAndPrune => Connection.FailAndPrune s
  | .shutdown => (Connection.Shutdown s).2
  | .destroy => Connection.Destroy s

/-- Applies a sequence of operations, oldest first. -/
def applyOps (ops : List Op) (s : Connection) : Connection :=
  ops.foldl (fun t op => stepConn op t) s

namespace Connection

theorem set_write_state_write_state (v : WriteState) (s : Connection) :
    (set_write_state v s).write_state = v := by
  unfold set_write_state; split
  · assumption
  · rfl

theorem set_write_state_frame (v : WriteState) (s : Connection) :
    (set_write_state v s).port = s.port ∧
    (set_write_state v s).receiving = s.receiving ∧
    (set_write_state v s).nomination = s.nomination ∧
    (set_write_state v s).acked_nomination = s.acked_nomination ∧
    (set_write_state v s).remote_nomination = s.remote_nomination ∧
    (set_write_state v s).pings_since_last_response = s.pings_since_last_response ∧
    (set_write_state v s).last_ping_response_received = s.last_ping_response_received ∧
    (set_write_state v s).time_created = s.time_created ∧
    (set_write_state v s).sends = s.sends ∧
    (set_write_state v s).requests = s.requests ∧
    (set_write_state v s).num_pings_sent = s.num_pings_sent ∧
    (set_write_state v s).state = s.state ∧
    (set_write_state v s).last_ping_sent = s.last_ping_sent := by
  unfold set_write_state; split <;> simp

theorem UpdateReceiving_frame (now : Timestamp) (s : Connection) :
    (UpdateReceiving now s).port = s.port ∧
    (UpdateReceiving now s).write_state = s.write_state ∧
    (UpdateReceiving now s).nomination = s.nomination ∧
    (UpdateReceiving now s).acked_nomination = s.acked_nomination ∧
    (UpdateReceiving now s).remote_nomination = s.remote_nomination ∧
    (UpdateReceiving now s).pings_since_last_response = s.pings_since_last_response ∧
    (UpdateReceiving now s).last_ping_response_received = s.last_ping_response_received ∧
    (UpdateReceiving now s).time_created = s.time_created ∧
    (UpdateReceiving now s).sends = s.sends ∧
    (UpdateReceiving now s).requests = s.requests ∧
    (UpdateReceiving now s).num_pings_sent = s.num_pings_sent ∧
    (UpdateReceiving now s).state = s.state ∧
    (UpdateReceiving now s).last_ping_sent = s.last_ping_sent := by
  unfold UpdateReceiving; split <;> simp

theorem UpdateState_write_state (now : Timestamp) (s : Connection) :
    (UpdateState now s).write_state = computeWriteState now s := by
  unfold UpdateState
  rw [(UpdateReceiving_frame now _).2.1, set_write_state_write_state]

theorem UpdateState_frame (now : Timestamp) (s : Connection) :
    (UpdateState now s).port = s.port ∧
    (UpdateState now s).nomination = s.nomination ∧
    (UpdateState now s).acked_nomination = s.acked_nomination ∧
    (UpdateState now s).remote_nomination = s.remote_nomination ∧
    (UpdateState now s).pings_since_last_response = s.pings_since_last_response ∧
    (UpdateState now s).last_ping_response_received = s.last_ping_response_received ∧
    (UpdateState now s).time_created = s.time_created ∧
    (UpdateState now s).sends = s.sends ∧
    (UpdateState now s).requests = s.requests ∧
    (UpdateState now s).num_pings_sent = s.num_pings_sent ∧
    (UpdateState now s).state = s.state ∧
    (UpdateState now s).last_ping_sent = s.last_ping_sent := by
  unfold UpdateState
  obtain ⟨h1, _, h3, h4, h5, h6, h7, h8, h9, h10, h11, h12, h13⟩ :=
    UpdateReceiving_frame now (set_write_state (computeWriteState now s) s)
  obtain ⟨g1, _, g3, g4, g5, g6, g7, g8, g9, g10, g11, g12, g13⟩ :=
    set_write_state_frame (computeWriteState now s) s
  exact ⟨h1.trans g1, h3.trans g3, h4.trans g4, h5.trans g5, h6.trans g6,
    h7.trans g7, h8.trans g8, h9.trans g9, h10.trans g10, h11.trans g11,
    h12.trans g12, h13.trans g13⟩

theorem countP_destroyed_stateChange :
    List.countP (fun e => e == ConnEvent.destroyed) [ConnEvent.stateChange] = 0 := rfl

theorem countP_destroyed_nominated_ite (b : Bool) :
    List.countP (fun e => e == ConnEvent.destroyed)
      (if b then [ConnEvent.nominated] else []) = 0 := by
  cases b <;> rfl

theorem destroyedCount_set_write_state (v : WriteState) (s : Connection) :
    destroyedCount (set_write_state v s) = destroyedCount s := by
  unfold set_write_state destroyedCount; split
  · rfl
  · simp [List.countP_append, countP_destroyed_stateChange]

theorem destroyedCount_UpdateReceiving (now : Timestamp) (s : Connection) :
    destroyedCount (UpdateReceiving now s) = destroyedCount s := by
  unfold UpdateReceiving destroyedCount; split
  · rfl
  · simp [List.countP_append, countP_destroyed_stateChange]

theorem destroyedCount_UpdateState (now : Timestamp) (s : Connection) :
    destroyedCount (UpdateState now s) = destroyedCount s := by
  unfold UpdateState
  rw [destroyedCount_UpdateReceiving, destroyedCount_set_write_state]

theorem Ping_frame (txid : Nat) (body : List Nat) (now : Timestamp)
    (s : Connection) :
    (Ping txid body now s).port = s.port ∧
    (Ping txid body now s).write_state = s.write_state ∧
    (Ping txid body now s).nomination = s.nomination ∧
    (Ping txid body now s).acked_nomination = s.acked_nomination ∧
    (Ping txid body now s).remote_nomination = s.remote_nomination ∧
    (Ping txid body now s).last_ping_response_received = s.last_ping_response_received ∧
    (Ping txid body now s).time_created = s.time_created ∧
    (Ping txid body now s).events = s.events ∧
    (Ping txid body now s).pings_since_last_response =
      trimPings (s.pings_since_last_response ++ [SentPing.mk txid now s.nomination]) ∧
    (Ping txid body now s).last_ping_sent = now ∧
    (Ping txid body now s).num_pings_sent = s.num_pings_sent + 1 ∧
    (Ping txid body now s).state =
      (if s.state = IceCandidatePairState.Waiting then
        IceCandidatePairState.InProgress else s.state) := by
  simp only [Ping]
  repeat' split
  all_goals simp

theorem ReceivedPingResponse_frame (rttSample : TimeDelta) (requestId : Nat)
    (now : Timestamp) (s : Connection) :
    (ReceivedPingResponse rttSample requestId now s).port = s.port ∧
    (ReceivedPingResponse rttSample requestId now s).nomination = s.nomination ∧
    (ReceivedPingResponse rttSample requestId now s).sends = s.sends ∧
    (ReceivedPingResponse rttSample requestId now s).time_created = s.time_created ∧
    (ReceivedPingResponse rttSample requestId now s).pings_since_last_response = [] ∧
    (ReceivedPingResponse rttSample requestId now s).last_ping_response_received =
      some now := by
  unfold ReceivedPingResponse
  obtain ⟨hport, hnom, _, _, hpings, hresp, htime, hsends, _, _, _, _⟩ :=
    UpdateState_frame now _
  exact ⟨hport.trans rfl, hnom.trans rfl, hsends.trans rfl, htime.trans rfl,
    hpings.trans rfl, hresp.trans rfl⟩

theorem ReceivedPingResponse_acked (rttSample : TimeDelta) (requestId : Nat)
    (now : Timestamp) (s : Connection) :
    (ReceivedPingResponse rttSample requestId now s).acked_nomination =
      (match s.pings_since_last_response.find? (fun p => p.id == requestId) with
       | some p => if s.acked_nomination < p.nomination then p.nomination
                   else s.acked_nomination
       | none => s.acked_nomination) := by
  unfold ReceivedPingResponse
  rw [(UpdateState_frame now _).2.2.1]

theorem ReceivedPingResponse_write_state (rttSample : TimeDelta)
    (requestId : Nat) (now : Timestamp) (s : Connection) :
    (ReceivedPingResponse rttSample requestId now s).write_state =
      WriteState.STATE_WRITABLE := by
  unfold ReceivedPingResponse
  rw [UpdateState_write_state]
  unfold computeWriteState
  simp [DEFAULT_INACTIVE_TIMEOUT, DEFAULT_UNWRITABLE_TIMEOUT,
    DEFAULT_UNWRITABLE_MIN_CHECKS, TimeDelta.millis]

theorem destroyedCount_ReceivedPingResponse (rttSample : TimeDelta)
    (requestId : Nat) (now : Timestamp) (s : Connection) :
    destroyedCount (ReceivedPingResponse rttSample requestId now s) =
      destroyedCount s := by
  unfold ReceivedPingResponse
  rw [destroyedCount_UpdateState]
  unfold destroyedCount
  simp [List.countP_append, countP_destroyed_nominated_ite]

theorem HandleRequest_frame (txid : Nat) (useCandidate : Bool)
    (nominationAttr : Option Nat) (isGoogPing : Bool) (now : Timestamp)
    (s : Connection) :
    (HandleStunBindingOrGoogPingRequest txid useCandidate nominationAttr
        isGoogPing now s).port = s.port ∧
    (HandleStunBindingOrGoogPingRequest txid useCandidate nominationAttr
        isGoogPing now s).write_state = s.write_state ∧
    (HandleStunBindingOrGoogPingRequest txid useCandidate nominationAttr
        isGoogPing now s).nomination = s.nomination ∧
    (HandleStunBindingOrGoogPingRequest txid useCandidate nominationAttr
        isGoogPing now s).acked_nomination = s.acked_nomination ∧
    (HandleStunBindingOrGoogPingRequest txid useCandidate nominationAttr
        isGoogPing now s).pings_since_last_response =
      s.pings_since_last_response ∧
    (HandleStunBindingOrGoogPingRequest txid useCandidate nominationAttr
        isGoogPing now s).last_ping_response_received =
      s.last_ping_response_received ∧
    (HandleStunBindingOrGoogPingRequest txid useCandidate nominationAttr
        isGoogPing now s).time_created = s.time_created := by
  simp only [HandleStunBindingOrGoogPingRequest]
  repeat' split
  all_goals simp

theorem destroyedCount_HandleRequest (txid : Nat) (useCandidate : Bool)
    (nominationAttr : Option Nat) (isGoogPing : Bool) (now : Timestamp)
    (s : Connection) :
    destroyedCount (HandleStunBindingOrGoogPingRequest txid useCandidate
      nominationAttr isGoogPing now s) = destroyedCount s := by
  simp only [HandleStunBindingOrGoogPingRequest, destroyedCount]
  repeat' split
  all_goals simp [List.countP_append, countP_destroyed_nominated_ite]

/-- Invariant for claim C1: while no ping response has ever been received,
the write state is `STATE_WRITE_INIT` or `STATE_WRITE_TIMEOUT`. -/
def NoRespInv (s : Connection) : Prop :=
  s.last_ping_response_received = none →
    s.write_state = WriteState.STATE_WRITE_INIT ∨
    s.write_state = WriteState.STATE_WRITE_TIMEOUT

theorem computeWriteState_none (now : Timestamp) (s : Connection)
    (h : s.last_ping_response_received = none) :
    computeWriteState now s = WriteState.STATE_WRITE_INIT ∨
    computeWriteState now s = WriteState.STATE_WRITE_TIMEOUT := by
  simp only [computeWriteState]
  split
  · split
    · exact Or.inr rfl
    · exact Or.inl rfl
  · rename_i heq
    rw [h] at heq
    cases heq

theorem stepConn_NoRespInv (op : Op) (s : Connection) (h : NoRespInv s) :
    NoRespInv (stepConn op s) := by
  cases op with
  | ping txid body now =>
      intro hn
      have hp := Ping_frame txid body now s
      simp only [stepConn] at hn ⊢
      rw [hp.2.2.2.2.2.1] at hn
      rw [hp.2.1]
      exact h hn
  | updateState now =>
      intro hn
      simp only [stepConn] at hn ⊢
      rw [UpdateState_write_state]
      rw [(UpdateState_frame now s).2.2.2.2.2.1] at hn
      exact computeWriteState_none now s hn
  | receivedPingResponse rttSample requestId now =>
      intro hn
      have := (ReceivedPingResponse_frame rttSample requestId now s).2.2.2.2.2
      simp only [stepConn] at hn
      rw [this] at hn
      cases hn
  | handleBindingRequest txid useCandidate nominationAttr isGoogPing now =>
      intro hn
      have hf := HandleRequest_frame txid useCandidate nominationAttr isGoogPing now s
      simp only [stepConn] at hn ⊢
      rw [hf.2.2.2.2.2.1] at hn
      rw [hf.2.1]
      exact h hn
  | setNomination v => exact h
  | forgetLearnedState => exact fun _ => Or.inl rfl
  | prune => exact h
  | failAndPrune => exact h
  | shutdown =>
      simp only [stepConn, Shutdown]
      split <;> exact h
  | destroy =>
      simp only [stepConn, Destroy, Shutdown]
      split <;> exact h

theorem applyOps_NoRespInv (ops : List Op) (s : Connection) (h : NoRespInv s) :
    NoRespInv (applyOps ops s) := by
  induction ops generalizing s with
  | nil => exact h
  | cons op rest ih => exact ih (stepConn op s) (stepConn_NoRespInv op s h)

theorem stepConn_init_to_timeout (op : Op) (s : Connection)
    (hresp : s.last_ping_response_received = none)
    (hws : s.write_state = WriteState.STATE_WRITE_INIT)
    (hto : (stepConn op s).write_state = WriteState.STATE_WRITE_TIMEOUT) :
    ∃ now, op = Op.updateState now ∧
      CONNECTION_WRITE_CONNECT_FAILURES ≤ s.pings_since_last_response.length ∧
      CONNECTION_WRITE_CONNECT_TIMEOUT.us ≤ now.us - s.time_created.us := by
  cases op with
  | ping txid body now =>
      simp only [stepConn] at hto
      rw [(Ping_frame txid body now s).2.1, hws] at hto
      cases hto
  | updateState now =>
      refine ⟨now, rfl, ?_⟩
      simp only [stepConn] at hto
      rw [UpdateState_write_state] at hto
      simp only [computeWriteState] at hto
      split at hto
      · split at hto
        · assumption
        · cases hto
      · rename_i heq
        rw [hresp] at heq
        cases heq
  | receivedPingResponse rttSample requestId now =>
      simp only [stepConn] at hto
      rw [ReceivedPingResponse_write_state] at hto
      cases hto
  | handleBindingRequest txid useCandidate nominationAttr isGoogPing now =>
      simp only [stepConn] at hto
      rw [(HandleRequest_frame txid useCandidate nominationAttr isGoogPing
        now s).2.1, hws] at hto
      cases hto
  | setNomination v =>
      simp only [stepConn, set_nomination] at hto
      rw [hws] at hto
      cases hto
  | forgetLearnedState =>
      simp only [stepConn, ForgetLearnedState] at hto
      cases hto
  | prune =>
      simp only [stepConn, Prune] at hto
      rw [hws] at hto
      cases hto
  | failAndPrune =>
      simp only [stepConn, FailAndPrune] at hto
      rw [hws] at hto
      cases hto
  | shutdown =>
      simp only [stepConn, Shutdown] at hto
      split at hto <;> simp at hto <;> rw [hws] at hto <;> cases hto
  | destroy =>
      simp only [stepConn, Destroy, Shutdown] at hto
      split at hto <;> simp at hto <;> rw [hws] at hto <;> cases hto

/-- Invariant for claim C2: `SignalDestroyed` has been emitted at most once,
and not at all while the port handle is still held. -/
def DestroyOnceInv (s : Connection) : Prop :=
  (s.port = true → destroyedCount s = 0) ∧ destroyedCount s ≤ 1

theorem countP_destroyed_destroyed :
    List.countP (fun e => e == ConnEvent.destroyed) [ConnEvent.destroyed] = 1 := rfl

theorem stepConn_DestroyOnceInv (op : Op) (s : Connection)
    (h : DestroyOnceInv s) : DestroyOnceInv (stepConn op s) := by
  cases op with
  | ping txid body now =>
      have hp := Ping_frame txid body now s
      unfold DestroyOnceInv destroyedCount at h ⊢
      simp only [stepConn, hp.2.2.2.2.2.2.2.1, hp.1]
      exact h
  | updateState now =>
      unfold DestroyOnceInv
      simp only [stepConn, destroyedCount_UpdateState, (UpdateState_frame now s).1]
      exact h
  | receivedPingResponse rttSample requestId now =>
      unfold DestroyOnceInv
      simp only [stepConn, destroyedCount_ReceivedPingResponse,
        (ReceivedPingResponse_frame rttSample requestId now s).1]
      exact h
  | handleBindingRequest txid useCandidate nominationAttr isGoogPing now =>
      unfold DestroyOnceInv
      simp only [stepConn, destroyedCount_HandleRequest,
        (HandleRequest_frame txid useCandidate nominationAttr isGoogPing now s).1]
      exact h
  | setNomination v => exact h
  | forgetLearnedState => exact h
  | prune => exact h
  | failAndPrune => exact h
  | shutdown =>
      unfold DestroyOnceInv destroyedCount at h ⊢
      simp only [stepConn, Shutdown]
      split
      · rename_i hport
        have hz := h.1 hport
        constructor
        · intro hfalse
          cases hfalse
        · simp only [List.countP_append, countP_destroyed_destroyed]
          omega
      · exact h
  | destroy =>
      unfold DestroyOnceInv destroyedCount at h ⊢
      simp only [stepConn, Destroy, Shutdown]
      split
      · rename_i hport
        have hz := h.1 hport
        constructor
        · intro hfalse
          cases hfalse
        · simp only [List.countP_append, countP_destroyed_destroyed]
          omega
      · exact h

theorem applyOps_DestroyOnceInv (ops : List Op) (s : Connection)
    (h : DestroyOnceInv s) : DestroyOnceInv (applyOps ops s) := by
  induction ops generalizing s with
  | nil => exact h
  | cons op rest ih => exact ih (stepConn op s) (stepConn_DestroyOnceInv op s h)

/-- Invariant for claim C3: the acknowledged nomination never exceeds the
current nomination, and every recorded sent ping carries a nomination that
does not exceed the current one. -/
def NominationInv (s : Connection) : Prop :=
  s.acked_nomination ≤ s.nomination ∧
  ∀ p ∈ s.pings_since_last_response, p.nomination ≤ s.nomination

theorem mem_trimPings {p : SentPing} {l : List SentPing}
    (h : p ∈ trimPings l) : p ∈ l := by
  unfold trimPings at h
  split at h
  · exact List.drop_subset _ _ h
  · exact h

theorem stepConn_NominationInv (op : Op) (s : Connection)
    (h : NominationInv s) : NominationInv (stepConn op s) := by
  cases op with
  | ping txid body now =>
      have hp := Ping_frame txid body now s
      simp only [stepConn]
      constructor
      · rw [hp.2.2.1, hp.2.2.2.1]
        exact h.1
      · intro p hmem
        rw [hp.2.2.2.2.2.2.2.2.1] at hmem
        rw [hp.2.2.1]
        rcases List.mem_append.mp (mem_trimPings hmem) with hold | hnew
        · exact h.2 p hold
        · rcases List.mem_singleton.mp hnew with rfl
          exact le_refl _
  | updateState now =>
      have hf := UpdateState_frame now s
      simp only [stepConn]
      constructor
      · rw [hf.2.1, hf.2.2.1]
        exact h.1
      · intro p hmem
        rw [hf.2.2.2.2.1] at hmem
        rw [hf.2.1]
        exact h.2 p hmem
  | receivedPingResponse rttSample requestId now =>
      have hf := ReceivedPingResponse_frame rttSample requestId now s
      simp only [stepConn]
      constructor
      · rw [hf.2.1, ReceivedPingResponse_acked]
        cases hfind : s.pings_since_last_response.find?
            (fun p => p.id == requestId) with
        | none =>
            simp only [hfind]
            exact h.1
        | some p =>
            simp only [hfind]
            have hmem := List.mem_of_find?_eq_some hfind
            have hle := h.2 p hmem
            split
            · exact hle
            · exact h.1
      · intro p hmem
        rw [hf.2.2.2.2.1] at hmem
        cases hmem
  | handleBindingRequest txid useCandidate nominationAttr isGoogPing now =>
      have hf := HandleRequest_frame txid useCandidate nominationAttr isGoogPing now s
      simp only [stepConn]
      constructor
      · rw [hf.2.2.1, hf.2.2.2.1]
        exact h.1
      · intro p hmem
        rw [hf.2.2.2.2.1] at hmem
        rw [hf.2.2.1]
        exact h.2 p hmem
  | setNomination v =>
      simp only [stepConn, set_nomination]
      constructor
      · exact h.1.trans (le_max_left _ _)
      · intro p hmem
        exact (h.2 p hmem).trans (le_max_left _ _)
  | forgetLearnedState =>
      simp only [stepConn, ForgetLearnedState]
      exact ⟨h.1, by intro p hmem; cases hmem⟩
  | prune => exact h
  | failAndPrune => exact h
  | shutdown =>
      simp only [stepConn, Shutdown]
      split <;> exact h
  | destroy =>
      simp only [stepConn, Destroy, Shutdown]
      split <;> exact h

theorem applyOps_NominationInv (ops : List Op) (s : Connection)
    (h : NominationInv s) : NominationInv (applyOps ops s) := by
  induction ops generalizing s with
  | nil => exact h
  | cons op rest ih => exact ih (stepConn op s) (stepConn_NominationInv op s h)

theorem stepConn_nomination_mono (op : Op) (s : Connection) :
    s.nomination ≤ (stepConn op s).nomination := by
  cases op with
  | ping txid body now =>
      simp only [stepConn, (Ping_frame txid body now s).2.2.1]
      exact le_refl _
  | updateState now =>
      simp only [stepConn, (UpdateState_frame now s).2.1]
      exact le_refl _
  | receivedPingResponse rttSample requestId now =>
      simp only [stepConn,
        (ReceivedPingResponse_frame rttSample requestId now s).2.1]
      exact le_refl _
  | handleBindingRequest txid useCandidate nominationAttr isGoogPing now =>
      simp only [stepConn,
        (HandleRequest_frame txid useCandidate nominationAttr isGoogPing now s).2.2.1]
      exact le_refl _
  | setNomination v => exact le_max_left _ _
  | forgetLearnedState => exact le_refl _
  | prune => exact le_refl _
  | failAndPrune => exact le_refl _
  | shutdown =>
      simp only [stepConn, Shutdown]
      split <;> exact le_refl _
  | destroy =>
      simp only [stepConn, Destroy, Shutdown]
      split <;> exact le_refl _

theorem stepConn_acked_mono (op : Op) (s : Connection) :
    s.acked_nomination ≤ (stepConn op s).acked_nomination := by
  cases op with
  | ping txid body now =>
      simp only [stepConn, (Ping_frame txid body now s).2.2.2.1]
      exact le_refl _
  | updateState now =>
      simp only [stepConn, (UpdateState_frame now s).2.2.1]
      exact le_refl _
  | receivedPingResponse rttSample requestId now =>
      simp only [stepConn, ReceivedPingResponse_acked]
      cases hfind : s.pings_since_last_response.find? (fun p => p.id == requestId) with
      | none =>
          simp only [hfind]
          exact le_refl _
      | some p =>
          simp only [hfind]
          split
          · omega
          · exact le_refl _
  | handleBindingRequest txid useCandidate nominationAttr isGoogPing now =>
      simp only [stepConn,
        (HandleRequest_frame txid useCandidate nominationAttr isGoogPing now s).2.2.2.1]
      exact le_refl _
  | setNomination v => exact le_refl _
  | forgetLearnedState => exact le_refl _
  | prune => exact le_refl _
  | failAndPrune => exact le_refl _
  | shutdown =>
      simp only [stepConn, Shutdown]
      split <;> exact le_refl _
  | destroy =>
      simp only [stepConn, Destroy, Shutdown]
      split <;> exact le_refl _

theorem applyOps_nomination_mono (ops : List Op) (s : Connection) :
    s.nomination ≤ (applyOps ops s).nomination := by
  induction ops generalizing s with
  | nil => exact le_refl _
  | cons op rest ih => exact (stepConn_nomination_mono op s).trans (ih (stepConn op s))

theorem applyOps_acked_mono (ops : List Op) (s : Connection) :
    s.acked_nomination ≤ (applyOps ops s).acked_nomination := by
  induction ops generalizing s with
  | nil => exact le_refl _
  | cons op rest ih => exact (stepConn_acked_mono op s).trans (ih (stepConn op s))

theorem stepConn_sends_of_no_port (op : Op) (s : Connection)
    (h : s.port = false) : (stepConn op s).sends = s.sends := by
  cases op with
  | ping txid body now => simp [stepConn, Ping, h]
  | updateState now => exact (UpdateState_frame now s).2.2.2.2.2.2.2.1
  | receivedPingResponse rttSample requestId now =>
      exact (ReceivedPingResponse_frame rttSample requestId now s).2.2.1
  | handleBindingRequest txid useCandidate nominationAttr isGoogPing now =>
      simp [stepConn, HandleStunBindingOrGoogPingRequest, h]
  | setNomination v => rfl
  | forgetLearnedState => rfl
  | prune => rfl
  | failAndPrune => rfl
  | shutdown => simp [stepConn, Shutdown, h]
  | destroy => simp [stepConn, Destroy, Shutdown, h]

theorem Ping_sends_of_port (txid : Nat) (body : List Nat) (now : Timestamp)
    (s : Connection) (hport : s.port = true) :
    (Ping txid body now s).sends = s.sends ++
      [SentMsg.mk (if ShouldSendGoogPing s body then MsgKind.googPingRequest
                   else MsgKind.bindingRequest) body] := by
  simp only [Ping]
  split <;> simp [hport]

end Connection

/-- Example state for witnesses: two unanswered pings are outstanding,
with ids 1 (older) and 2 (newer). -/
def twoPingState : Connection :=
  { Connection.init ⟨0⟩ with
    pings_since_last_response :=
      [SentPing.mk 1 ⟨1000⟩ 0, SentPing.mk 2 ⟨2000⟩ 0] }

/-- Example state for witnesses: the peer has advertised GOOG_PING support
and the binding body `[1, 2, 3]` has been cached. -/
def googReadyState : Connection :=
  { Connection.init ⟨0⟩ with
    remote_support_goog_ping := some true
    cached_stun_binding := some [1, 2, 3] }

/-- C1: in every reachable state in which no ping response has ever been
received since creation, the write state is `STATE_WRITE_INIT` or
`STATE_WRITE_TIMEOUT` (never `STATE_WRITABLE` or `STATE_WRITE_UNRELIABLE`);
and from such a state, an operation moves the write state from
`STATE_WRITE_INIT` to `STATE_WRITE_TIMEOUT` only if it is an `UpdateState`
call at an instant with at least `CONNECTION_WRITE_CONNECT_FAILURES` (5)
outstanding pings and at least `CONNECTION_WRITE_CONNECT_TIMEOUT` (15 s)
elapsed since creation. -/
theorem C1_write_state_before_first_response (ops : List Op) (t0 : Timestamp)
    (op : Op) :
    ((applyOps ops (Connection.init t0)).last_ping_response_received = none →
      (applyOps ops (Connection.init t0)).write_state =
        WriteState.STATE_WRITE_INIT ∨
      (applyOps ops (Connection.init t0)).write_state =
        WriteState.STATE_WRITE_TIMEOUT) ∧
    (∀ s : Connection, s.last_ping_response_received = none →
      s.write_state = WriteState.STATE_WRITE_INIT →
      (stepConn op s).write_state = WriteState.STATE_WRITE_TIMEOUT →
      ∃ now, op = Op.updateState now ∧
        CONNECTION_WRITE_CONNECT_FAILURES ≤
          s.pings_since_last_response.length ∧
        CONNECTION_WRITE_CONNECT_TIMEOUT.us ≤ now.us - s.time_created.us) := by
  constructor
  · exact Connection.applyOps_NoRespInv ops _ (fun _ => Or.inl rfl)
  · exact fun s h1 h2 h3 => Connection.stepConn_init_to_timeout op s h1 h2 h3

theorem C1_write_state_before_first_response_witness :
    (Connection.init ⟨0⟩).last_ping_response_received = none ∧
    ((Connection.init ⟨0⟩).write_state = WriteState.STATE_WRITE_INIT ∨
     (Connection.init ⟨0⟩).write_state = WriteState.STATE_WRITE_TIMEOUT) :=
  ⟨rfl,
   (C1_write_state_before_first_response [] ⟨0⟩ (Op.updateState ⟨0⟩)).1 rfl⟩

/-- C2: `Shutdown` is idempotent: the first call cancels in-flight requests,
releases the port handle, publishes `SignalDestroyed` and returns true;
any subsequent call returns false and changes nothing; and over any
operation sequence from creation (in particular any sequence of
Shutdown/Destroy calls) `SignalDestroyed` is emitted at most once. -/
theorem C2_shutdown_idempotent (s : Connection) (ops : List Op)
    (t0 : Timestamp) :
    (s.port = true →
      (Connection.Shutdown s).1 = true ∧
      (Connection.Shutdown s).2.requests = [] ∧
      (Connection.Shutdown s).2.port = false ∧
      (Connection.Shutdown s).2.events = s.events ++ [ConnEvent.destroyed]) ∧
    (s.port = false → Connection.Shutdown s = (false, s)) ∧
    Connection.destroyedCount (applyOps ops (Connection.init t0)) ≤ 1 := by
  refine ⟨?_, ?_, ?_⟩
  · intro hport
    simp [Connection.Shutdown, hport]
  · intro hport
    simp [Connection.Shutdown, hport]
  · exact (Connection.applyOps_DestroyOnceInv ops (Connection.init t0)
      ⟨fun _ => rfl, Nat.zero_le 1⟩).2

theorem C2_shutdown_idempotent_witness :
    (Connection.init ⟨0⟩).port = true ∧
    (Connection.Shutdown (Connection.init ⟨0⟩)).1 = true ∧
    Connection.destroyedCount
      (applyOps [Op.shutdown, Op.destroy] (Connection.init ⟨0⟩)) ≤ 1 :=
  ⟨rfl,
   ((C2_shutdown_idempotent (Connection.init ⟨0⟩) [Op.shutdown, Op.destroy]
      ⟨0⟩).1 rfl).1,
   (C2_shutdown_idempotent (Connection.init ⟨0⟩) [Op.shutdown, Op.destroy]
      ⟨0⟩).2.2⟩

/-- C3: in every reachable state, `acked_nomination ≤ nomination`, and both
values are non-decreasing over any further sequence of operations that does
not contain a `ForgetLearnedState` call. -/
theorem C3_nomination_monotone (ops1 ops2 : List Op) (t0 : Timestamp)
    (hNoForget : Op.forgetLearnedState ∉ ops2) :
    (applyOps ops2 (applyOps ops1 (Connection.init t0))).acked_nomination ≤
      (applyOps ops2 (applyOps ops1 (Connection.init t0))).nomination ∧
    (applyOps ops1 (Connection.init t0)).nomination ≤
      (applyOps ops2 (applyOps ops1 (Connection.init t0))).nomination ∧
    (applyOps ops1 (Connection.init t0)).acked_nomination ≤
      (applyOps ops2 (applyOps ops1 (Connection.init t0))).acked_nomination := by
  have hinv := Connection.applyOps_NominationInv ops2 _
    (Connection.applyOps_NominationInv ops1 (Connection.init t0)
      ⟨le_refl 0, fun p hp => absurd hp (List.not_mem_nil p)⟩)
  exact ⟨hinv.1, Connection.applyOps_nomination_mono ops2 _,
    Connection.applyOps_acked_mono ops2 _⟩

theorem C3_nomination_monotone_witness :
    Op.forgetLearnedState ∉ ([Op.setNomination 2] : List Op) ∧
    (applyOps [Op.setNomination 2]
      (applyOps [] (Connection.init ⟨0⟩))).acked_nomination ≤
    (applyOps [Op.setNomination 2]
      (applyOps [] (Connection.init ⟨0⟩))).nomination :=
  ⟨by decide, (C3_nomination_monotone [] [Op.setNomination 2] ⟨0⟩ (by decide)).1⟩

/-- C4: immediately after any matched ping response is processed by
`ReceivedPingResponse`, `pings_since_last_response` is empty — for every
prior contents of the list and every matched request id, whether or not the
matched id is the newest entry. -/
theorem C4_response_clears_pings (rttSample : TimeDelta) (requestId : Nat)
    (now : Timestamp) (s : Connection)
    (hmatched : requestId ∈ s.pings_since_last_response.map SentPing.id) :
    (Connection.ReceivedPingResponse rttSample requestId now
      s).pings_since_last_response = [] :=
  (Connection.ReceivedPingResponse_frame rttSample requestId now s).2.2.2.2.1

theorem C4_response_clears_pings_witness :
    1 ∈ twoPingState.pings_since_last_response.map SentPing.id ∧
    (Connection.ReceivedPingResponse ⟨50000⟩ 1 ⟨3000⟩
      twoPingState).pings_since_last_response = [] :=
  ⟨by decide, C4_response_clears_pings ⟨50000⟩ 1 ⟨3000⟩ twoPingState (by decide)⟩

/-- C5: every `Ping(now, delta)` call appends `{txid, now, nomination}` to
`pings_since_last_response` (trimmed to the configured maximum), sets
`last_ping_sent` to `now`, increments `num_pings_sent` by exactly one, and
moves the ICE pair state from `Waiting` to `InProgress` when it was
`Waiting`. -/
theorem C5_ping_effects (txid : Nat) (body : List Nat) (now : Timestamp)
    (s : Connection) :
    (Connection.Ping txid body now s).pings_since_last_response =
      Connection.trimPings (s.pings_since_last_response ++
        [SentPing.mk txid now s.nomination]) ∧
    (Connection.Ping txid body now s).last_ping_sent = now ∧
    (Connection.Ping txid body now s).num_pings_sent = s.num_pings_sent + 1 ∧
    (s.state = IceCandidatePairState.Waiting →
      (Connection.Ping txid body now s).state =
        IceCandidatePairState.InProgress) := by
  have hp := Connection.Ping_frame txid body now s
  refine ⟨hp.2.2.2.2.2.2.2.2.1, hp.2.2.2.2.2.2.2.2.2.1,
    hp.2.2.2.2.2.2.2.2.2.2.1, ?_⟩
  intro hw
  rw [hp.2.2.2.2.2.2.2.2.2.2.2, if_pos hw]

theorem C5_ping_effects_witness :
    (Connection.init ⟨0⟩).state = IceCandidatePairState.Waiting ∧
    (Connection.Ping 7 [] ⟨5000⟩ (Connection.init ⟨0⟩)).state =
      IceCandidatePairState.InProgress :=
  ⟨rfl, (C5_ping_effects 7 [] ⟨5000⟩ (Connection.init ⟨0⟩)).2.2.2 rfl⟩

/-- C6: `ForgetLearnedState` sets `write_state = STATE_WRITE_INIT` and
`receiving = false`, cancels all in-flight STUN requests, and resets the
RTT estimate and `pings_since_last_response`, while leaving `connected`,
`remote_candidate` and the accumulated statistics unchanged and emitting no
signal at all (in particular no `SignalStateChange`). -/
theorem C6_forget_learned_state (s : Connection) :
    (Connection.ForgetLearnedState s).write_state =
      WriteState.STATE_WRITE_INIT ∧
    (Connection.ForgetLearnedState s).receiving = false ∧
    (Connection.ForgetLearnedState s).requests = [] ∧
    (Connection.ForgetLearnedState s).rtt_estimate = none ∧
    (Connection.ForgetLearnedState s).pings_since_last_response = [] ∧
    (Connection.ForgetLearnedState s).connected = s.connected ∧
    (Connection.ForgetLearnedState s).remote_candidate = s.remote_candidate ∧
    (Connection.ForgetLearnedState s).stats = s.stats ∧
    (Connection.ForgetLearnedState s).events = s.events :=
  ⟨rfl, rfl, rfl, rfl, rfl, rfl, rfl, rfl, rfl⟩

/-- C7: with the port alive, a ping sends a `GOOG_PING_REQUEST` in place of
a STUN Binding Request exactly when `remote_support_goog_ping == true` and
the freshly built request body is byte-identical to `cached_stun_binding`;
otherwise it sends a full Binding Request. -/
theorem C7_goog_ping_condition (txid : Nat) (body : List Nat)
    (now : Timestamp) (s : Connection) (hport : s.port = true) :
    ((Connection.Ping txid body now s).sends =
        s.sends ++ [SentMsg.mk MsgKind.googPingRequest body] ↔
      s.remote_support_goog_ping = some true ∧
      s.cached_stun_binding = some body) ∧
    (¬(s.remote_support_goog_ping = some true ∧
        s.cached_stun_binding = some body) →
      (Connection.Ping txid body now s).sends =
        s.sends ++ [SentMsg.mk MsgKind.bindingRequest body]) := by
  have hs := Connection.Ping_sends_of_port txid body now s hport
  by_cases hc : s.remote_support_goog_ping = some true ∧
      s.cached_stun_binding = some body
  · have hg : Connection.ShouldSendGoogPing s body = true := decide_eq_true hc
    rw [hg] at hs
    simp only [if_true] at hs
    exact ⟨by simp [hs, hc], fun hn => absurd hc hn⟩
  · have hg : Connection.ShouldSendGoogPing s body = false :=
      decide_eq_false hc
    rw [hg] at hs
    simp only [Bool.false_eq_true, if_false] at hs
    refine ⟨?_, fun _ => hs⟩
    rw [hs]
    simp [hc]

theorem C7_goog_ping_condition_witness :
    googReadyState.port = true ∧
    (Connection.Ping 9 [1, 2, 3] ⟨1000⟩ googReadyState).sends =
      googReadyState.sends ++ [SentMsg.mk MsgKind.googPingRequest [1, 2, 3]] :=
  ⟨rfl,
   (C7_goog_ping_condition 9 [1, 2, 3] ⟨1000⟩ googReadyState rfl).1.mpr
     ⟨rfl, rfl⟩⟩

/-- C8: whenever `pending_delete()` is true (the weak port handle is empty),
no operation performs an outbound send: the sends log is unchanged by every
operation. -/
theorem C8_pending_delete_no_sends (s : Connection) (op : Op)
    (h : Connection.pending_delete s = true) :
    (stepConn op s).sends = s.sends := by
  have hport : s.port = false := by
    simp only [Connection.pending_delete, Bool.not_eq_true'] at h
    exact h
  exact Connection.stepConn_sends_of_no_port op s hport

theorem C8_pending_delete_no_sends_witness :
    Connection.pending_delete (Connection.Destroy (Connection.init ⟨0⟩)) =
      true ∧
    (stepConn (Op.ping 1 [] ⟨0⟩)
        (Connection.Destroy (Connection.init ⟨0⟩))).sends =
      (Connection.Destroy (Connection.init ⟨0⟩)).sends :=
  ⟨rfl,
   C8_pending_delete_no_sends (Connection.Destroy (Connection.init ⟨0⟩))
     (Op.ping 1 [] ⟨0⟩) rfl⟩

/-- C9: the deprecated integer-millisecond interface is equivalent to the
typed interface: `UpdateState(now)` equals `UpdateState(Timestamp::Millis(now))`,
`Ping(now, delta)` equals `Ping(Timestamp::Millis(now), delta)`,
`rtt() == Rtt().ms()` and `last_ping_sent() == LastPingSent().ms()`. -/
theorem C9_deprecated_ms_equiv (now : Nat) (txid : Nat) (body : List Nat)
    (s : Connection) :
    Connection.UpdateState_ms now s =
      Connection.UpdateState (Timestamp.millis now) s ∧
    Connection.Ping_ms txid body now s =
      Connection.Ping txid body (Timestamp.millis now) s ∧
    Connection.rtt_deprecated s = (Connection.Rtt s).ms ∧
    Connection.last_ping_sent_deprecated s = (Connection.LastPingSent s).ms :=
  ⟨rfl, rfl, rfl, rfl⟩

/-- C10: `AlignTime` truncates a timestamp to whole-millisecond resolution:
`AlignTime(t) = Timestamp::Millis(t.us() / 1000)`, `AlignTime(t) ≤ t`, and
`AlignTime` is idempotent. -/
theorem C10_align_time (t : Timestamp) :
    Connection.AlignTime t = Timestamp.millis (t.us / 1000) ∧
    (Connection.AlignTime t).us ≤ t.us ∧
    Connection.AlignTime (Connection.AlignTime t) = Connection.AlignTime t := by
  refine ⟨rfl, ?_, ?_⟩
  · exact Nat.div_mul_le_self t.us 1000
  · show Timestamp.millis (t.us / 1000 * 1000 / 1000) =
      Timestamp.millis (t.us / 1000)
    rw [Nat.mul_div_cancel _ (by norm_num : 0 < 1000)]

end WebRTC
